import Mathlib

/-!
Verification of the ytsaurus-k8s-operator reconciliation core: a shallow
embedding of the ControllerAgent component state machine
(pkg/components/controller_agent.go) and the Managed Server abstraction
(the `server` struct), together with theorems checking the specified
contracts.

Helpers of this repository that are outside the provided sources
(`ytv1.IsReadyToUpdateClusterState`, `handleUpdatingClusterState`,
`IsRunningStatus`, `SimpleStatus`/`WaitingStatus`, the
`resources.StatefulSet` wrapper, the `ConfigHelper`) are modelled from the
specification; each such definition carries a doc comment saying so.
-/

namespace YtOperator

/-- Go `error` values, modelled as strings (`nil` is `none : Option Err`). -/
abbrev Err := String

/-- Cluster macro lifecycle state (`ytv1.ClusterState`, spec §3): `Creating`,
`Running`, `Updating` (a.k.a. Reconfiguration), `Updated`, `CreationFailed`. -/
inductive ClusterState where
  | Creating
  | Running
  | Updating
  | Updated
  | CreationFailed
  deriving DecidableEq, Repr

/-- Modelled from the spec: `ytv1.IsReadyToUpdateClusterState` is not among the
provided sources. Per §4.3, update initiation is permitted exactly when the
cluster state is `Running`. -/
def IsReadyToUpdateClusterState (s : ClusterState) : Bool :=
  s == ClusterState.Running

/-- Per-component sync status (`SyncStatus`, spec §3). -/
inductive SyncStatus where
  | Ready
  | Pending
  | Blocked
  | NeedLocalUpdate
  | NeedFullUpdate
  | NeedRestart
  | Updating
  deriving DecidableEq, Repr

/-- Modelled from the spec: `IsRunningStatus` is not among the provided
sources. The "Ready family" of statuses: the component's pods are running
(fully `Ready`, or running but flagged for a local/full update). -/
def IsRunningStatus (s : SyncStatus) : Bool :=
  s == SyncStatus.Ready || s == SyncStatus.NeedLocalUpdate ||
    s == SyncStatus.NeedFullUpdate

/-- `ComponentStatus`: a sync status plus a free-text reason (spec §3). -/
structure ComponentStatus where
  syncStatus : SyncStatus
  message : String
  deriving DecidableEq, Repr

/-- Modelled from the spec: `SimpleStatus` is not among the provided sources;
it wraps a bare sync status with no blocking reason. -/
def SimpleStatus (s : SyncStatus) : ComponentStatus :=
  { syncStatus := s, message := "" }

/-- Modelled from the spec: `WaitingStatus` is not among the provided sources;
per §4.2 it carries the blocking event (dependency name, "components",
"pods") as the status reason. -/
def WaitingStatus (s : SyncStatus) (event : String) : ComponentStatus :=
  { syncStatus := s, message := event }

/-! ### Instance spec and built workload-set objects

`corev1`/`appsv1` data carried through the build: only the fields the server
actually sets are modelled; opaque pass-through data (resource requirements,
affinity, tolerations, …) is carried as uninterpreted strings. -/

/-- A declared storage location (`ytv1.Location`): only the path is relevant
to the init command. -/
structure Location where
  path : String
  deriving DecidableEq, Repr

/-- `corev1.VolumeMount`, restricted to the fields the build writes. -/
structure VolumeMount where
  name : String
  mountPath : String
  readOnly : Bool
  deriving DecidableEq, Repr

/-- A persistent volume claim template, carried through opaquely. -/
structure VolumeClaim where
  name : String
  spec : String
  deriving DecidableEq, Repr

/-- `corev1.Volume`, carried through opaquely. -/
structure Volume where
  name : String
  source : String
  deriving DecidableEq, Repr

/-- `ytv1.InstanceSpec`: the per-role declarative description read by the
server build (spec §3). -/
structure InstanceSpec where
  instanceCount : Int
  image : Option String
  locations : List Location
  volumeMounts : List VolumeMount
  volumeClaimTemplates : List VolumeClaim
  volumes : List Volume
  resources : String
  affinity : Option String
  nodeSelector : List (String × String)
  tolerations : List String
  deriving DecidableEq, Repr

/-- `consts.YTServerContainerName` (not among the provided sources). -/
def ytServerContainerName : String := "ytserver"

/-- `consts.PrepareLocationsContainerName` (not among the provided sources). -/
def prepareLocationsContainerName : String := "prepare-locations"

/-- `consts.ConfigMountPoint` (not among the provided sources): the mount
point of the config artifact inside the pod. -/
def configMountPoint : String := "/config"

/-- `consts.ConfigVolumeName` (not among the provided sources). -/
def configVolumeName : String := "config"

/-- Go `path.Join` on two nonempty slash-free components. -/
def pathJoin (a b : String) : String := a ++ "/" ++ b

/-- Modelled from the spec: `getLocationInitCommand` is not among the
provided sources; per §4.1 it is "an init step that creates/validates
declared storage locations before the main process starts", a deterministic
function of the declared locations. -/
def getLocationInitCommand (locations : List Location) : String :=
  "mkdir -p " ++ String.intercalate " " (locations.map Location.path)

/-- Modelled from the spec: `createVolumeMounts` is not among the provided
sources; it mounts the declared volumes plus the config artifact under the
config mount point. -/
def createVolumeMounts (volumeMounts : List VolumeMount) : List VolumeMount :=
  volumeMounts ++
    [{ name := configVolumeName, mountPath := configMountPoint, readOnly := true }]

/-- Modelled from the spec: `createVolumeClaims` is not among the provided
sources; a deterministic translation of the declared claim templates. -/
def createVolumeClaims (claims : List VolumeClaim) : List VolumeClaim :=
  claims

/-- Modelled from the spec: `createVolumes` is not among the provided
sources; the declared volumes plus the config-artifact volume backed by the
main config map. -/
def createVolumes (volumes : List Volume) (configMapName : String) : List Volume :=
  volumes ++ [{ name := configVolumeName, source := configMapName }]

/-- `corev1.Container`, restricted to the fields the build writes. -/
structure Container where
  image : String
  name : String
  command : List String
  volumeMounts : List VolumeMount
  resources : String
  deriving DecidableEq, Repr

/-- `corev1.PodSpec`, restricted to the fields the build writes. -/
structure PodSpec where
  imagePullSecrets : List String
  setHostnameAsFQDN : Bool
  containers : List Container
  initContainers : List Container
  volumes : List Volume
  affinity : Option String
  nodeSelector : List (String × String)
  tolerations : List String
  deriving DecidableEq, Repr

/-- The desired workload-set object (`appsv1.StatefulSet`), restricted to
the fields the build writes. -/
structure StatefulSetObj where
  replicas : Int
  serviceName : String
  volumeClaimTemplates : List VolumeClaim
  template : PodSpec
  deriving DecidableEq, Repr

/-! ### Observed state of the owned infrastructure objects -/

/-- The observed (fetched) state of the server's owned objects, plus the
answers the external collaborators would give this tick. `stsOldReplicas`
and `stsOldImage` reflect `statefulSet.OldObject()`; `configNeedReload`
mirrors the Go pair `(needReload, err)` returned by
`configHelper.NeedReload()`; `syncErr` is the error `resources.Sync` would
return from `server.Sync`. -/
structure ObservedState where
  stsExists : Bool
  headlessExists : Bool
  monitoringExists : Bool
  stsOldReplicas : Option Int
  stsOldImage : String
  podsReady : Bool
  configNeedSync : Bool
  configNeedReload : Bool × Option Err
  syncErr : Option Err
  deriving DecidableEq, Repr

/-- The `server` struct: resolved image, paths and names fixed by
`NewServer`, the instance spec, the build cache `builtStatefulSet`, and the
observed state of the owned objects. -/
structure Server where
  image : String
  binaryPath : String
  configFileName : String
  statefulSetName : String
  serviceName : String
  configMapName : String
  imagePullSecrets : List String
  instanceSpec : InstanceSpec
  builtStatefulSet : Option StatefulSetObj
  obs : ObservedState
  deriving DecidableEq, Repr

/-- `NewServer`: resolves the effective image (instance-spec override when
set, else the cluster-wide core image) and constructs the server with an
empty build cache. -/
def NewServer (coreImage : String) (instanceSpec : InstanceSpec)
    (binaryPath configFileName statefulSetName serviceName configMapName : String)
    (imagePullSecrets : List String) (obs : ObservedState) : Server :=
  { image := match instanceSpec.image with
      | some i => i
      | none => coreImage
    binaryPath := binaryPath
    configFileName := configFileName
    statefulSetName := statefulSetName
    serviceName := serviceName
    configMapName := configMapName
    imagePullSecrets := imagePullSecrets
    instanceSpec := instanceSpec
    builtStatefulSet := none
    obs := obs }

/-- `server.exists`: all three owned objects (workload set, headless
service, monitoring service) exist. -/
def Server.exists' (s : Server) : Bool :=
  s.obs.stsExists && s.obs.headlessExists && s.obs.monitoringExists

/-- Modelled from the spec: `resources.StatefulSet.NeedSync` is not among
the provided sources; per §4.1 the workload set needs sync towards a target
replica count when its observed replica count does not match that target. -/
def stsNeedSync (obs : ObservedState) (replicas : Int) : Bool :=
  obs.stsOldReplicas != some replicas

/-- `server.NeedSync`: the config artifact is stale, or an owned object is
missing, or the workload set's replica count does not match the instance
spec. -/
def Server.NeedSync (s : Server) : Bool :=
  s.obs.configNeedSync || !s.exists' || stsNeedSync s.obs s.instanceSpec.instanceCount

/-- `server.ArePodsRemoved`. -/
def Server.ArePodsRemoved (s : Server) : Bool :=
  if s.obs.configNeedSync || !s.obs.stsExists || !s.obs.headlessExists then
    false
  else
    !(stsNeedSync s.obs 0)

/-- `server.imageCorrespondsToSpec`: the fetched workload set's first
container image equals the resolved spec image. -/
def Server.imageCorrespondsToSpec (s : Server) : Bool :=
  s.obs.stsOldImage == s.image

/-- `server.NeedUpdate`. -/
def Server.NeedUpdate (s : Server) : Bool :=
  if !s.exists' then
    false
  else if !s.imageCorrespondsToSpec then
    true
  else
    match s.obs.configNeedReload with
    | (_, some _) => false
    | (needReload, none) => needReload

/-- `server.ArePodsReady`. -/
def Server.ArePodsReady (s : Server) : Bool :=
  s.obs.podsReady

/-- `server.RebuildStatefulSet`: recomputes the desired workload-set object
from the instance spec and config artifact, and replaces the build cache. -/
def Server.RebuildStatefulSet (s : Server) : StatefulSetObj × Server :=
  let locationCreationCommand := getLocationInitCommand s.instanceSpec.locations
  let volumeMounts := createVolumeMounts s.instanceSpec.volumeMounts
  let statefulSet : StatefulSetObj :=
    { replicas := s.instanceSpec.instanceCount
      serviceName := s.serviceName
      volumeClaimTemplates := createVolumeClaims s.instanceSpec.volumeClaimTemplates
      template :=
        { imagePullSecrets := s.imagePullSecrets
          setHostnameAsFQDN := true
          containers :=
            [{ image := s.image
               name := ytServerContainerName
               command :=
                 [s.binaryPath, "--config", pathJoin configMountPoint s.configFileName]
               volumeMounts := volumeMounts
               resources := s.instanceSpec.resources }]
          initContainers :=
            [{ image := s.image
               name := prepareLocationsContainerName
               command := ["bash", "-c", locationCreationCommand]
               volumeMounts := volumeMounts
               resources := "" }]
          volumes := createVolumes s.instanceSpec.volumes s.configMapName
          affinity := s.instanceSpec.affinity
          nodeSelector := s.instanceSpec.nodeSelector
          tolerations := s.instanceSpec.tolerations } }
  (statefulSet, { s with builtStatefulSet := some statefulSet })

/-- `server.BuildStatefulSet`: returns the cached object when one exists,
else delegates to `RebuildStatefulSet`. -/
def Server.BuildStatefulSet (s : Server) : StatefulSetObj × Server :=
  match s.builtStatefulSet with
  | some b => (b, s)
  | none => s.RebuildStatefulSet

/-- `server.Sync`: builds all owned objects (the workload set through the
cache) and writes them via `resources.Sync`, whose outcome is the observed
`syncErr`. -/
def Server.Sync (s : Server) : Option Err × Server :=
  ((s.BuildStatefulSet).2.obs.syncErr, (s.BuildStatefulSet).2)

/-! ### The ControllerAgent component (pkg/components/controller_agent.go) -/

/-- The ControllerAgent component together with the per-tick environment its
decision procedure reads: the cluster state, the master dependency's
already-computed status and name, and the outcome the shared
update-handling protocol would report for it this tick
(`updatingStatus = none` means the protocol yields no status and evaluation
falls through; `updatingErr` is the error its live-mode mutations would
produce). -/
structure ControllerAgent where
  server : Server
  clusterState : ClusterState
  masterStatus : ComponentStatus
  masterName : String
  updatingStatus : Option ComponentStatus
  updatingErr : Option Err
  deriving DecidableEq, Repr

/-- Modelled from the spec: `handleUpdatingClusterState` is not among the
provided sources. Per §4.3 it drives a component through the cluster-wide
update sub-protocol and may yield an authoritative status; per §7 and §4.2
a dry-run evaluation performs no mutation, so it produces no error when
`dry` is set. -/
def handleUpdatingClusterState (ca : ControllerAgent) (dry : Bool) :
    Option ComponentStatus × Option Err :=
  (ca.updatingStatus, if dry then none else ca.updatingErr)

/-- Modelled from the spec: `localServerComponent.NeedSync` is not among the
provided sources; per §4.2 rule 4 it reports the Managed Server's
`NeedSync`. -/
def ControllerAgent.NeedSync (ca : ControllerAgent) : Bool :=
  ca.server.NeedSync

/-- The result of one `doSync` evaluation: the returned status and error,
whether `server.Sync` was invoked (the side-effect trace), and the updated
component. -/
structure DoSyncResult where
  status : ComponentStatus
  err : Option Err
  syncCalled : Bool
  ca : ControllerAgent
  deriving DecidableEq, Repr

/-- `ControllerAgent.doSync`: the per-component decision procedure, ported
rule for rule from the Go control flow. -/
def ControllerAgent.doSync (ca : ControllerAgent) (dry : Bool) : DoSyncResult :=
  if IsReadyToUpdateClusterState ca.clusterState && ca.server.NeedUpdate then
    { status := SimpleStatus SyncStatus.NeedLocalUpdate, err := none
      syncCalled := false, ca := ca }
  else if ca.clusterState == ClusterState.Updating &&
      (handleUpdatingClusterState ca dry).1.isSome then
    { status := (handleUpdatingClusterState ca dry).1.getD (SimpleStatus SyncStatus.Ready)
      err := (handleUpdatingClusterState ca dry).2
      syncCalled := false, ca := ca }
  else if !IsRunningStatus ca.masterStatus.syncStatus then
    { status := WaitingStatus SyncStatus.Blocked ca.masterName, err := none
      syncCalled := false, ca := ca }
  else if ca.NeedSync then
    if dry then
      { status := WaitingStatus SyncStatus.Pending "components", err := none
        syncCalled := false, ca := ca }
    else
      { status := WaitingStatus SyncStatus.Pending "components"
        err := (ca.server.Sync).1
        syncCalled := true, ca := { ca with server := (ca.server.Sync).2 } }
  else if !ca.server.ArePodsReady then
    { status := WaitingStatus SyncStatus.Blocked "pods", err := none
      syncCalled := false, ca := ca }
  else
    { status := SimpleStatus SyncStatus.Ready, err := none
      syncCalled := false, ca := ca }

/-- `ControllerAgent.Status`: the dry-run evaluation; `none` models the
`panic(err)` branch taken when `doSync` reports an error. -/
def ControllerAgent.Status (ca : ControllerAgent) : Option ComponentStatus :=
  let r := ca.doSync true
  match r.err with
  | some _ => none
  | none => some r.status

/-- `ControllerAgent.Sync`: the live evaluation, propagating the error. -/
def ControllerAgent.Sync (ca : ControllerAgent) : Option Err :=
  (ca.doSync false).err

/-! ### The state machine as an ordered rule list (spec §4.2)

To state the "evaluated top-to-bottom, first matching rule wins" contract,
the five guarded rules are listed in the spec's order, with `Ready` as the
default; `firstMatch` is the generic first-match evaluator. -/

/-- First-match evaluation of guarded rules, with a default. -/
def firstMatch : List (Bool × ComponentStatus) → ComponentStatus → ComponentStatus
  | [], dflt => dflt
  | (g, r) :: rest, dflt => if g then r else firstMatch rest dflt

/-- The five guarded rules of §4.2 in order: (1) update-initiation permitted
and NeedUpdate; (2) cluster Updating and the shared update protocol yields a
status; (3) dependency not in the Ready family; (4) NeedSync; (5) pods not
ready. Rule (6), `Ready`, is the default of the evaluation. -/
def caRules (ca : ControllerAgent) : List (Bool × ComponentStatus) :=
  [ (IsReadyToUpdateClusterState ca.clusterState && ca.server.NeedUpdate,
     SimpleStatus SyncStatus.NeedLocalUpdate),
    (ca.clusterState == ClusterState.Updating && ca.updatingStatus.isSome,
     ca.updatingStatus.getD (SimpleStatus SyncStatus.Ready)),
    (!IsRunningStatus ca.masterStatus.syncStatus,
     WaitingStatus SyncStatus.Blocked ca.masterName),
    (ca.NeedSync, WaitingStatus SyncStatus.Pending "components"),
    (!ca.server.ArePodsReady, WaitingStatus SyncStatus.Blocked "pods") ]

/-! ### Concrete states used by witnesses and counterexamples -/

/-- A minimal instance spec with one replica and no declared volumes. -/
def specOne : InstanceSpec :=
  { instanceCount := 1
    image := none
    locations := []
    volumeMounts := []
    volumeClaimTemplates := []
    volumes := []
    resources := ""
    affinity := none
    nodeSelector := []
    tolerations := [] }

/-- A fully-deployed, healthy observation: all owned objects exist, one
replica, pods ready, config fresh. -/
def obsHealthy : ObservedState :=
  { stsExists := true
    headlessExists := true
    monitoringExists := true
    stsOldReplicas := some 1
    stsOldImage := "registry/yt:v2"
    podsReady := true
    configNeedSync := false
    configNeedReload := (false, none)
    syncErr := none }

/-- A controller-agent server whose deployed objects all exist but whose
deployed image (`v1`) differs from the resolved spec image (`v2`), so
`NeedUpdate` holds. -/
def srvStaleImage : Server :=
  { image := "registry/yt:v2"
    binaryPath := "/usr/bin/ytserver-controller-agent"
    configFileName := "ytserver-controller-agent.yson"
    statefulSetName := "ca"
    serviceName := "controller-agents"
    configMapName := "yt-controller-agent-config"
    imagePullSecrets := []
    instanceSpec := specOne
    builtStatefulSet := none
    obs := { obsHealthy with stsOldImage := "registry/yt:v1" } }

/-- A server none of whose owned objects exist yet (fresh component). -/
def srvFresh : Server :=
  { srvStaleImage with
    obs := { stsExists := false
             headlessExists := false
             monitoringExists := false
             stsOldReplicas := none
             stsOldImage := ""
             podsReady := false
             configNeedSync := true
             configNeedReload := (false, none)
             syncErr := some "accessor unavailable" } }

/-- A ControllerAgent in cluster state `Running` whose server needs an
update while its master dependency is `Blocked`: rule (1) fires before the
dependency check. -/
def caUpdateWhileBlocked : ControllerAgent :=
  { server := srvStaleImage
    clusterState := ClusterState.Running
    masterStatus := WaitingStatus SyncStatus.Blocked "pods"
    masterName := "Master"
    updatingStatus := none
    updatingErr := none }

/-- A ControllerAgent in cluster state `Creating` with a `Blocked` master
dependency and a healthy converged server. -/
def caBlockedDep : ControllerAgent :=
  { caUpdateWhileBlocked with
    server := { srvStaleImage with obs := obsHealthy }
    clusterState := ClusterState.Creating }

/-- A drained server: all owned objects exist, config fresh, and the
workload set has converged to zero replicas. -/
def srvDrained : Server :=
  { srvStaleImage with obs := { obsHealthy with stsOldReplicas := some 0 } }

/-- A server whose owned objects all exist with a matching image, but whose
config-reload check fails with an error while also reporting `true`. -/
def srvReloadErr : Server :=
  { srvStaleImage with
    obs := { obsHealthy with
             configNeedReload := (true, some "config generation failed") } }

/-- A ControllerAgent in cluster state `Creating` with a `Ready` master
dependency and a fresh (never-created) server, so `NeedSync` holds; its
live sync would fail. -/
def caNeedsCreate : ControllerAgent :=
  { server := srvFresh
    clusterState := ClusterState.Creating
    masterStatus := SimpleStatus SyncStatus.Ready
    masterName := "Master"
    updatingStatus := none
    updatingErr := none }

end YtOperator

namespace YtOperator

/-! ## Theorems -/

/-- C1: the per-component decision procedure `doSync` evaluates its rules
top-to-bottom with the first matching rule winning, in exactly the order
(1) update-initiation permitted and NeedUpdate gives NeedLocalUpdate,
(2) cluster Updating defers to the shared update-handling protocol and
stops when it yields a status, (3) non-Ready dependency gives Blocked,
(4) NeedSync gives Pending, (5) pods not ready gives Blocked, (6) default
Ready; and in particular a state with a non-Ready master dependency is
still flagged NeedLocalUpdate when rule (1) fires. -/
theorem doSync_first_matching_rule :
    (∀ (ca : ControllerAgent) (dry : Bool),
      (ca.doSync dry).status = firstMatch (caRules ca) (SimpleStatus SyncStatus.Ready)) ∧
    (IsRunningStatus caUpdateWhileBlocked.masterStatus.syncStatus = false ∧
      (caUpdateWhileBlocked.doSync true).status = SimpleStatus SyncStatus.NeedLocalUpdate) := by
  refine ⟨fun ca dry => ?_, by decide, by decide⟩
  simp only [ControllerAgent.doSync, caRules, firstMatch, handleUpdatingClusterState]
  split_ifs <;> simp_all

/-- C2 counterexample: in cluster state Running with a stale deployed image,
the master dependency is not in the Ready family, yet Status returns
NeedLocalUpdate, not Blocked with the dependency's name — the claim "always
Blocked" is false on the code. -/
theorem dependency_blocked_counterexample :
    IsRunningStatus caUpdateWhileBlocked.masterStatus.syncStatus = false ∧
    caUpdateWhileBlocked.Status = some (SimpleStatus SyncStatus.NeedLocalUpdate) ∧
    caUpdateWhileBlocked.Status ≠
      some (WaitingStatus SyncStatus.Blocked caUpdateWhileBlocked.masterName) := by
  refine ⟨by decide, by decide, by decide⟩

/-- C2 (amended): whenever the master dependency's status is not in the
Ready family AND the update-initiation rule does not fire first AND the
Updating-state protocol yields no status, doSync returns Blocked carrying
the dependency's name (in particular never Ready in those states). -/
theorem dependency_blocked_amended (ca : ControllerAgent) (dry : Bool)
    (h1 : IsRunningStatus ca.masterStatus.syncStatus = false)
    (h2 : (IsReadyToUpdateClusterState ca.clusterState && ca.server.NeedUpdate) = false)
    (h3 : ca.clusterState = ClusterState.Updating → ca.updatingStatus = none) :
    (ca.doSync dry).status = WaitingStatus SyncStatus.Blocked ca.masterName := by
  by_cases hu : ca.clusterState = ClusterState.Updating
  · simp [ControllerAgent.doSync, handleUpdatingClusterState,
      IsReadyToUpdateClusterState, h1, h2, hu, h3 hu]
  · simp [ControllerAgent.doSync, handleUpdatingClusterState, h1, h2, hu]

/-- C2 witness: a concrete state (cluster Creating, healthy converged
server, Blocked master) on which the amended claim applies. -/
theorem dependency_blocked_amended_witness :
    IsRunningStatus caBlockedDep.masterStatus.syncStatus = false ∧
    (caBlockedDep.doSync true).status =
      WaitingStatus SyncStatus.Blocked caBlockedDep.masterName :=
  ⟨by decide,
    dependency_blocked_amended caBlockedDep true (by decide) (by decide) (by decide)⟩

/-- C3: the dry-run evaluation is total — for every observed state
`doSync ctx true` returns a nil error, so `Status` never reaches its panic
branch and always returns the computed status. -/
theorem status_dry_run_total (ca : ControllerAgent) :
    (ca.doSync true).err = none ∧ ca.Status = some (ca.doSync true).status := by
  have herr : (ca.doSync true).err = none := by
    simp only [ControllerAgent.doSync, handleUpdatingClusterState]
    split_ifs <;> rfl
  refine ⟨herr, ?_⟩
  simp only [ControllerAgent.Status]
  rw [herr]

/-- C4: NeedUpdate holds iff all owned objects (workload set, headless
service, monitoring service) exist AND (the deployed first-container image
differs from the resolved spec image, OR the config helper reports — without
error — that the deployed config needs reload); in particular it is false
whenever an owned object does not yet exist. -/
theorem needUpdate_iff (s : Server) :
    s.NeedUpdate = true ↔
      (s.obs.stsExists = true ∧ s.obs.headlessExists = true ∧
        s.obs.monitoringExists = true) ∧
      (s.obs.stsOldImage ≠ s.image ∨ s.obs.configNeedReload = (true, none)) := by
  rcases hcr : s.obs.configNeedReload with ⟨nr, oe⟩
  unfold Server.NeedUpdate Server.exists' Server.imageCorrespondsToSpec
  rw [hcr]
  cases oe <;> cases nr <;>
    by_cases h1 : s.obs.stsExists = true <;>
    by_cases h2 : s.obs.headlessExists = true <;>
    by_cases h3 : s.obs.monitoringExists = true <;>
    by_cases h4 : s.obs.stsOldImage = s.image <;>
    simp_all [beq_iff_eq]

/-- C4 witness: the stale-image server (all objects exist, image differs)
needs an update; the fresh server (no objects) does not. -/
theorem needUpdate_iff_witness :
    srvStaleImage.NeedUpdate = true ∧ srvFresh.NeedUpdate ≠ true :=
  ⟨(needUpdate_iff srvStaleImage).mpr ⟨by decide, Or.inl (by decide)⟩,
    fun h => by
      have := ((needUpdate_iff srvFresh).mp h).1.1
      exact absurd this (by decide)⟩

/-- C5: NeedSync holds iff the config artifact is stale, or some owned
object (workload set, headless service, monitoring service) does not exist,
or the workload set's replica count does not match the instance spec. -/
theorem needSync_iff (s : Server) :
    s.NeedSync = true ↔
      s.obs.configNeedSync = true ∨
      ¬(s.obs.stsExists = true ∧ s.obs.headlessExists = true ∧
          s.obs.monitoringExists = true) ∨
      s.obs.stsOldReplicas ≠ some s.instanceSpec.instanceCount := by
  unfold Server.NeedSync Server.exists' stsNeedSync
  by_cases h1 : s.obs.configNeedSync = true <;>
    by_cases h2 : s.obs.stsExists = true <;>
    by_cases h3 : s.obs.headlessExists = true <;>
    by_cases h4 : s.obs.monitoringExists = true <;>
    by_cases h5 : s.obs.stsOldReplicas = some s.instanceSpec.instanceCount <;>
    simp_all [bne_iff_ne]

/-- C5 witness: the fresh server (nothing exists) needs sync; the healthy
converged stale-image server needs sync iff one of the three disjuncts
holds, and none does, so it does not need sync. -/
theorem needSync_iff_witness :
    srvFresh.NeedSync = true ∧ srvStaleImage.NeedSync ≠ true :=
  ⟨(needSync_iff srvFresh).mpr (Or.inl (by decide)),
    fun h => by
      rcases (needSync_iff srvStaleImage).mp h with h' | h' | h' <;>
        exact absurd h' (by decide)⟩

/-- Helper: the error `server.Sync` returns is the observed outcome of
writing the owned objects (`resources.Sync`); building the workload set
first does not change the observation. -/
theorem server_sync_err (s : Server) : (s.Sync).1 = s.obs.syncErr := by
  unfold Server.Sync Server.BuildStatefulSet
  cases h : s.builtStatefulSet <;> simp [h, Server.RebuildStatefulSet]

/-- C6: when NeedSync holds and no earlier rule fires, the dry-run result
is Pending("components") with no error and `server.Sync` not invoked; in
live mode `server.Sync` is invoked, its error is propagated to the caller
of `ControllerAgent.Sync`, and the status is still Pending("components"). -/
theorem needSync_branch (ca : ControllerAgent)
    (h1 : (IsReadyToUpdateClusterState ca.clusterState && ca.server.NeedUpdate) = false)
    (h2 : ca.clusterState = ClusterState.Updating → ca.updatingStatus = none)
    (h3 : IsRunningStatus ca.masterStatus.syncStatus = true)
    (h4 : ca.NeedSync = true) :
    ((ca.doSync true).status = WaitingStatus SyncStatus.Pending "components" ∧
      (ca.doSync true).err = none ∧ (ca.doSync true).syncCalled = false) ∧
    ((ca.doSync false).status = WaitingStatus SyncStatus.Pending "components" ∧
      (ca.doSync false).syncCalled = true ∧
      (ca.doSync false).err = (ca.server.Sync).1 ∧
      (ca.server.Sync).1 = ca.server.obs.syncErr ∧
      ca.Sync = (ca.server.Sync).1) := by
  have hdo : ∀ dry, ca.doSync dry =
      (if dry then
        { status := WaitingStatus SyncStatus.Pending "components", err := none
          syncCalled := false, ca := ca }
      else
        { status := WaitingStatus SyncStatus.Pending "components"
          err := (ca.server.Sync).1
          syncCalled := true, ca := { ca with server := (ca.server.Sync).2 } }) := by
    intro dry
    by_cases hu : ca.clusterState = ClusterState.Updating
    · simp [ControllerAgent.doSync, handleUpdatingClusterState,
        IsReadyToUpdateClusterState, h1, h2 hu, h3, h4, hu]
    · simp [ControllerAgent.doSync, handleUpdatingClusterState, h1, h3, h4, hu]
  refine ⟨⟨?_, ?_, ?_⟩, ?_, ?_, ?_, server_sync_err ca.server, ?_⟩ <;>
    simp [ControllerAgent.Sync, hdo]

/-- C6 witness: a fresh component (cluster Creating, Ready master, nothing
created yet) whose live sync fails with the accessor error, which is
propagated by `Sync` while the status stays Pending("components"). -/
theorem needSync_branch_witness :
    caNeedsCreate.NeedSync = true ∧
    caNeedsCreate.Sync = (caNeedsCreate.server.Sync).1 :=
  ⟨by decide,
    (needSync_branch caNeedsCreate (by decide) (by decide) (by decide)
        (by decide)).2.2.2.2.2⟩

/-- C7: `RebuildStatefulSet` is pure given an unchanged instance spec and
config artifact — a second rebuild (on the server returned by the first)
produces a structurally identical workload-set object — and it always
replaces the cache with the freshly built object; `BuildStatefulSet`
returns the cached object unchanged when one exists and otherwise delegates
to `RebuildStatefulSet`. -/
theorem rebuild_pure_build_caches (s : Server) :
    ((s.RebuildStatefulSet).2.RebuildStatefulSet).1 = (s.RebuildStatefulSet).1 ∧
    (s.RebuildStatefulSet).2.builtStatefulSet = some (s.RebuildStatefulSet).1 ∧
    (∀ b, s.builtStatefulSet = some b → s.BuildStatefulSet = (b, s)) ∧
    (s.builtStatefulSet = none → s.BuildStatefulSet = s.RebuildStatefulSet) := by
  refine ⟨rfl, rfl, ?_, ?_⟩
  · intro b hb
    unfold Server.BuildStatefulSet
    rw [hb]
  · intro hb
    unfold Server.BuildStatefulSet
    rw [hb]

/-- C7 witness: on the fresh server (empty cache) `BuildStatefulSet`
delegates to `RebuildStatefulSet`, and after a rebuild the cache holds the
rebuilt object. -/
theorem rebuild_pure_build_caches_witness :
    srvFresh.builtStatefulSet = none ∧
    srvFresh.BuildStatefulSet = srvFresh.RebuildStatefulSet ∧
    (srvFresh.RebuildStatefulSet).2.builtStatefulSet =
      some (srvFresh.RebuildStatefulSet).1 :=
  ⟨rfl, (rebuild_pure_build_caches srvFresh).2.2.2 rfl,
    (rebuild_pure_build_caches srvFresh).2.1⟩

/-- C8: ArePodsRemoved is true only when the workload set already exists
and has converged to the zero-replica target; it is never true for a
component whose objects were never created. -/
theorem arePodsRemoved_only_converged_zero (s : Server) :
    (s.ArePodsRemoved = true →
      s.obs.stsExists = true ∧ s.obs.stsOldReplicas = some 0) ∧
    (s.obs.stsExists = false → s.ArePodsRemoved = false) := by
  constructor
  · intro h
    by_cases h1 : s.obs.configNeedSync = true <;>
      by_cases h2 : s.obs.stsExists = true <;>
      by_cases h3 : s.obs.headlessExists = true <;>
      by_cases h5 : s.obs.stsOldReplicas = some 0 <;>
      simp_all [Server.ArePodsRemoved, stsNeedSync]
  · intro h2
    simp [Server.ArePodsRemoved, h2]

/-- C8 witness: a drained server (all objects exist, config fresh, workload
set at zero replicas) has its pods removed, and the theorem yields the
necessary conditions there. -/
theorem arePodsRemoved_only_converged_zero_witness :
    srvDrained.ArePodsRemoved = true ∧
    srvDrained.obs.stsExists = true ∧ srvDrained.obs.stsOldReplicas = some 0 :=
  ⟨by decide, (arePodsRemoved_only_converged_zero srvDrained).1 (by decide)⟩

/-- C9: `NewServer` resolves the effective image as the instance-spec
override when set, else the cluster-wide core image; the rebuilt workload
set uses it as the image of both the main and the location-init container;
and the main container's launch command is exactly the role binary path,
"--config", and the path of the config artifact file under the config mount
point. -/
theorem effective_image_and_command :
    (∀ (coreImage : String) (ispec : InstanceSpec)
        (bp cf ssn svn cmn : String) (ps : List String) (obs : ObservedState),
      (ispec.image = none →
        (NewServer coreImage ispec bp cf ssn svn cmn ps obs).image = coreImage) ∧
      (∀ i, ispec.image = some i →
        (NewServer coreImage ispec bp cf ssn svn cmn ps obs).image = i)) ∧
    (∀ s : Server,
      ((s.RebuildStatefulSet).1.template.containers.map Container.image = [s.image] ∧
        (s.RebuildStatefulSet).1.template.initContainers.map Container.image =
          [s.image]) ∧
      (s.RebuildStatefulSet).1.template.containers.map Container.command =
        [[s.binaryPath, "--config", pathJoin configMountPoint s.configFileName]]) := by
  constructor
  · intro coreImage ispec bp cf ssn svn cmn ps obs
    constructor
    · intro h
      simp [NewServer, h]
    · intro i h
      simp [NewServer, h]
  · intro s
    exact ⟨⟨rfl, rfl⟩, rfl⟩

/-- C9 witness: with no override the resolved image is the core image, and
the concrete stale-image server's rebuild puts its image and the expected
launch command in the main container. -/
theorem effective_image_and_command_witness :
    specOne.image = none ∧
    (NewServer "registry/yt:v2" specOne "/usr/bin/ytserver-controller-agent"
        "ytserver-controller-agent.yson" "ca" "controller-agents"
        "yt-controller-agent-config" [] obsHealthy).image = "registry/yt:v2" ∧
    (srvStaleImage.RebuildStatefulSet).1.template.containers.map Container.command =
      [["/usr/bin/ytserver-controller-agent", "--config",
        pathJoin configMountPoint "ytserver-controller-agent.yson"]] :=
  ⟨rfl,
    (effective_image_and_command.1 "registry/yt:v2" specOne
        "/usr/bin/ytserver-controller-agent" "ytserver-controller-agent.yson"
        "ca" "controller-agents" "yt-controller-agent-config" [] obsHealthy).1 rfl,
    (effective_image_and_command.2 srvStaleImage).2⟩

/-- C10 (implicit): when the config-reload check inside NeedUpdate fails
with an error, NeedUpdate returns false — the error is swallowed and the
update signal suppressed for that tick, even though all owned objects exist
(and even when the check also reported that a reload is needed). -/
theorem needUpdate_swallows_reload_error (s : Server) (e : Err)
    (h1 : s.exists' = true)
    (h2 : s.obs.stsOldImage = s.image)
    (h3 : (s.obs.configNeedReload).2 = some e) :
    s.NeedUpdate = false := by
  rcases hcr : s.obs.configNeedReload with ⟨nr, oe⟩
  rw [hcr] at h3
  simp only at h3
  unfold Server.NeedUpdate Server.imageCorrespondsToSpec
  rw [hcr, h3]
  simp [h1, h2]

/-- C10 witness: the concrete server whose reload check errors while
reporting `true` still gets `NeedUpdate = false`. -/
theorem needUpdate_swallows_reload_error_witness :
    srvReloadErr.exists' = true ∧
    (srvReloadErr.obs.configNeedReload) = (true, some "config generation failed") ∧
    srvReloadErr.NeedUpdate = false :=
  ⟨by decide, by decide,
    needUpdate_swallows_reload_error srvReloadErr "config generation failed"
      (by decide) (by decide) (by decide)⟩
